import Mathlib

/-!
Verification of the road-accident dashboard pipeline (`app.py`).

The script is a linear pandas pipeline: load CSV → clean columns/rows →
feature engineering (derived columns) → sidebar filter → KPIs and
aggregations.  We embed the numeric data flow shallowly:

* a cell that went through `pd.to_numeric(errors="coerce")` is an
  `Option ℚ`, where `none` models a NaN (a value that was missing or
  failed numeric coercion);
* IEEE comparison semantics are preserved: any comparison against a NaN
  cell is false;
* pandas divisions producing non-finite values (division by zero, NaN
  operands) are modelled as `none`;
* `groupby(...).sum()` skips NaN (pandas `skipna` default), summing the
  numeric cells only.
-/

namespace RoadDashboard

/-- A numeric cell after `pd.to_numeric(errors="coerce")`: `some q` is a
number, `none` is NaN (missing value or failed coercion). -/
abbrev Cell := Option ℚ

/-- One raw CSV row, after per-column numeric coercion (`app.py` lines
43–54).  The `state` column is never coerced and stays a string. -/
structure RawRow where
  state : String
  year : Cell
  vehicles : Cell
  accidents : Cell
  rate : Cell
  fatalities : Cell
deriving DecidableEq, Repr, Inhabited

/-- The raw table: its column names and its rows. -/
structure RawTable where
  cols : List String
  rows : List RawRow
deriving DecidableEq, Repr, Inhabited

/-- Python's `str.strip()`: remove leading and trailing whitespace
characters. -/
def stripName (s : String) : String :=
  ⟨((s.data.dropWhile (fun c => c.isWhitespace)).reverse.dropWhile
    (fun c => c.isWhitespace)).reverse⟩

/-- `df.columns.str.strip()` (`app.py` line 34). -/
def stripCols (cols : List String) : List String :=
  cols.map stripName

/-- Lines 37–40: if no column is exactly `"Year"`, rename every column
whose lowercase form is `"year"` (the loop has no break, so all
case-insensitive matches are renamed). -/
def ensureYearCol (cols : List String) : List String :=
  if "Year" ∈ cols then cols
  else cols.map (fun c => if c.toLower = "year" then "Year" else c)

/-- Truncation of a rational toward zero: the semantics of
`astype(int)` on a float column (numpy C-style cast). -/
def truncQ (q : ℚ) : ℤ :=
  if 0 ≤ q then ⌊q⌋ else -⌊-q⌋

/-- A cleaned row: `Year` has been cast to an integer (line 60); the four
other numeric columns may still be NaN, the cleaning step never drops on
them. -/
structure CleanRow where
  state : String
  year : ℤ
  vehicles : Cell
  accidents : Cell
  rate : Cell
  fatalities : Cell
deriving DecidableEq, Repr, Inhabited

/-- The cast of a raw row once its `year` cell is known numeric
(applied after `dropna(subset=["Year"])`). -/
def toCleanRow (r : RawRow) : CleanRow :=
  { state := r.state
    year := truncQ (r.year.getD 0)
    vehicles := r.vehicles
    accidents := r.accidents
    rate := r.rate
    fatalities := r.fatalities }

/-- The cleaned table. -/
structure CleanTable where
  cols : List String
  rows : List CleanRow
deriving DecidableEq, Repr, Inhabited

/-- The Cleaner, `app.py` lines 34–60: strip column names, ensure a
`Year` column, coerce numerics (identity on our `Cell` representation),
drop rows with missing `Year` (line 57: `dropna(subset=["Year"])` — the
only drop performed), cast `Year` to int. -/
def cleanTable (t : RawTable) : CleanTable :=
  { cols := ensureYearCol (stripCols t.cols)
    rows := (t.rows.filter (fun r => r.year.isSome)).map toCleanRow }

/-- Comparison of a possibly-NaN cell against a constant: `cellGT c q`
models the Python expression `c > q`, false whenever `c` is NaN. -/
def cellGT (c : Cell) (q : ℚ) : Bool :=
  match c with
  | none => false
  | some v => decide (q < v)

/-- `risk_category` (`app.py` lines 84–90): strict comparisons against 5
then 2, everything else (including NaN rates) falls to `"Low Risk"`. -/
def risk_category (rate : Cell) : String :=
  if cellGT rate 5 then "High Risk"
  else if cellGT rate 2 then "Medium Risk"
  else "Low Risk"

/-- `COVID Period` (`app.py` lines 95–97). -/
def covid_period (y : ℤ) : String :=
  if y = 2020 ∨ y = 2021 then "COVID" else "Non-COVID"

/-- Elementwise pandas division: NaN operands propagate, and division by
zero produces a non-finite value (inf or NaN); both are `none` here. -/
def cellDiv (a b : Cell) : Cell :=
  match a, b with
  | some x, some y => if y = 0 then none else some (x / y)
  | _, _ => none

/-- Elementwise multiplication by a constant (NaN propagates). -/
def cellScale (c : Cell) (k : ℚ) : Cell :=
  c.map (fun x => x * k)

/-- `pct_change() * 100` between a previous and a current cell: NaN when
either is NaN or the previous value is zero (pandas yields inf/NaN
there), else `(cur - prev) / prev * 100`. -/
def pctChange (prev cur : Cell) : Cell :=
  match prev, cur with
  | some p, some c => if p = 0 then none else some ((c - p) / p * 100)
  | _, _ => none

/-- The previous row of the same state strictly before position `i`, in
table order: this is the row `groupby("State/UT").pct_change()`
differences against (the last earlier member of the group). -/
def prevSameState (rows : List CleanRow) (i : ℕ) : Option CleanRow :=
  ((rows.take i).filter
    (fun r => r.state == (rows.getD i default).state)).getLast?

/-- The `YoY Accident Change (%)` value of the row at position `i`
(`app.py` lines 78–81): NaN for the first row of its group, else the
percentage change of `accidents` against the previous same-state row. -/
def yoyAt (rows : List CleanRow) (i : ℕ) : Cell :=
  match prevSameState rows i with
  | none => none
  | some p => pctChange p.accidents (rows.getD i default).accidents

/-- Strict code-point lexicographic order on strings, the order Python
(and hence pandas) uses to compare state names.  It coincides with
Mathlib's `String` order (`String.lt_iff_toList_lt`). -/
def strLtB (a b : String) : Bool :=
  decide (a.data < b.data)

/-- Non-strict code-point lexicographic order on strings. -/
def strLeB (a b : String) : Bool :=
  strLtB a b || a == b

/-- Lexicographic `(State/UT, Year)` order used by
`df.sort_values(["State/UT", "Year"])` (line 76). -/
def rowLe (a b : CleanRow) : Bool :=
  strLtB a.state b.state ||
    (a.state == b.state && decide (a.year ≤ b.year))

/-- Insertion of one element into a sorted list (generic). -/
def insertBy (le : α → α → Bool) (a : α) : List α → List α
  | [] => [a]
  | b :: l => if le a b then a :: b :: l else b :: insertBy le a l

/-- Insertion sort (generic).  With a reflexive-total `le` and insertion
condition `le a b` it is stable: equal keys keep their input order
(numpy's small-array sorts are insertion sorts, likewise stable). -/
def sortBy (le : α → α → Bool) : List α → List α
  | [] => []
  | a :: l => insertBy le a (sortBy le l)

/-- The sort of line 76: ascending by `(State/UT, Year)`. -/
def sortRows (rows : List CleanRow) : List CleanRow :=
  sortBy rowLe rows

/-- A feature-engineered row: the cleaned columns plus the five derived
columns of `app.py` lines 70–97. -/
structure FRow where
  state : String
  year : ℤ
  vehicles : Cell
  accidents : Cell
  rate : Cell
  fatalities : Cell
  fatPerAcc : Cell
  accPerMillion : Cell
  yoy : Cell
  risk : String
  covid : String
deriving DecidableEq, Repr, Inhabited

/-- The feature-engineered row at position `i` of the sorted table. -/
def featureRowAt (sorted : List CleanRow) (i : ℕ) : FRow :=
  { state := (sorted.getD i default).state
    year := (sorted.getD i default).year
    vehicles := (sorted.getD i default).vehicles
    accidents := (sorted.getD i default).accidents
    rate := (sorted.getD i default).rate
    fatalities := (sorted.getD i default).fatalities
    fatPerAcc := cellDiv (sorted.getD i default).fatalities
      (sorted.getD i default).accidents
    accPerMillion := cellScale (cellDiv (sorted.getD i default).accidents
      (sorted.getD i default).vehicles) 1000000
    yoy := yoyAt sorted i
    risk := risk_category (sorted.getD i default).rate
    covid := covid_period (sorted.getD i default).year }

/-- The Feature Engine, `app.py` lines 70–97: sort by `(State/UT, Year)`
and add the five derived columns. -/
def featureRows (rows : List CleanRow) : List FRow :=
  (List.range (sortRows rows).length).map (featureRowAt (sortRows rows))

/-- `Series.between` with the default inclusive bounds (line 127). -/
def between (y a b : ℤ) : Bool :=
  decide (a ≤ y) && decide (y ≤ b)

/-- The Filter, `app.py` lines 126–130: conjunction of an inclusive year
interval, `isin` on states and `isin` on risk categories. -/
def filterTable (rows : List FRow) (y0 y1 : ℤ)
    (states risks : List String) : List FRow :=
  rows.filter (fun r =>
    between r.year y0 y1 && states.contains r.state &&
      risks.contains r.risk)

/-- `Series.sum()` over cells: pandas skips NaN, an all-NaN (or empty)
column sums to 0. -/
def cellSum (cs : List Cell) : ℚ :=
  (cs.filterMap id).sum

/-- `Series.mean()` over cells: NaN skipped; NaN result when no numeric
value remains. -/
def cellMean (cs : List Cell) : Cell :=
  if (cs.filterMap id) = [] then none
  else some ((cs.filterMap id).sum / (cs.filterMap id).length)

/-- The per-state `groupby("State/UT")["Number of Road Accidents"].sum()`
of lines 184–187: group keys in ascending order (pandas `sort=True`
groupby default), each paired with the NaN-skipping sum of its group. -/
def groupStateSums (rows : List FRow) : List (String × ℚ) :=
  (sortBy strLeB (rows.map (fun r => r.state)).dedup).map
    (fun s => (s, cellSum ((rows.filter (fun r => r.state == s)).map
      (fun r => r.accidents))))

/-- `sort_values(by=..., ascending=False)` as pandas `nargsort` performs
it: the values (and index) are reversed before a stable ascending
argsort (numpy uses a stable insertion sort on small arrays) and the
resulting indexer is reversed again afterwards, so the two reversals
cancel on ties and tied keys keep their input order. -/
def sortValuesDesc (l : List (String × ℚ)) : List (String × ℚ) :=
  (sortBy (fun a b => decide (a.2 ≤ b.2)) l.reverse).reverse

/-- `state_acc` (`app.py` lines 184–190): group by state, sum accidents,
sort descending, keep the first 10 rows (`head(10)`). -/
def state_acc (rows : List FRow) : List (String × ℚ) :=
  (sortValuesDesc (groupStateSums rows)).take 10

/-- `trend_df` (`app.py` lines 160–167): group by `Year` (keys
ascending), summing accidents and fatalities. -/
def trend_df (rows : List FRow) : List (ℤ × ℚ × ℚ) :=
  (sortBy (fun a b => decide (a ≤ b)) (rows.map (fun r => r.year)).dedup).map
    (fun y => (y,
      cellSum ((rows.filter (fun r => r.year == y)).map (fun r => r.accidents)),
      cellSum ((rows.filter (fun r => r.year == y)).map (fun r => r.fatalities))))

/-- The KPI scalars of `app.py` lines 143–153. -/
structure KPI where
  vehicles : ℚ
  accidents : ℚ
  fatalities : ℚ
  avgRate : Cell
deriving DecidableEq, Repr

/-- KPI reductions over the filtered table. -/
def kpis (rows : List FRow) : KPI :=
  { vehicles := cellSum (rows.map (fun r => r.vehicles))
    accidents := cellSum (rows.map (fun r => r.accidents))
    fatalities := cellSum (rows.map (fun r => r.fatalities))
    avgRate := cellMean (rows.map (fun r => r.rate)) }

/-- Outcome of one top-to-bottom run of the script.  `emptyDataError` is
the `st.error` + `st.stop` of lines 63–65 (empty cleaned table);
`noDataWarning` is the `st.warning` + `st.stop` of lines 132–134 (empty
filtered table).  Aggregations and KPIs are computed only inside the
`rendered` constructor, so a short-circuited run carries none. -/
inductive AppResult where
  | emptyDataError : AppResult
  | noDataWarning : AppResult
  | rendered : KPI → List (ℤ × ℚ × ℚ) → List (String × ℚ) → AppResult
deriving DecidableEq, Repr

/-- One full run of the pipeline (stages 2–5 of the script) for a raw
table and one choice of the three sidebar filters. -/
def runApp (t : RawTable) (y0 y1 : ℤ) (states risks : List String) :
    AppResult :=
  if (cleanTable t).rows.isEmpty then AppResult.emptyDataError
  else
    if (filterTable (featureRows (cleanTable t).rows) y0 y1 states
        risks).isEmpty then AppResult.noDataWarning
    else AppResult.rendered
      (kpis (filterTable (featureRows (cleanTable t).rows) y0 y1 states risks))
      (trend_df (filterTable (featureRows (cleanTable t).rows) y0 y1 states risks))
      (state_acc (filterTable (featureRows (cleanTable t).rows) y0 y1 states risks))

/-! ### Helper lemmas -/

/-- Every feature-engineered row carries the risk category computed from
its own rate cell. -/
theorem featureRows_risk_eq (crows : List CleanRow) (r : FRow)
    (h : r ∈ featureRows crows) : r.risk = risk_category r.rate := by
  simp only [featureRows, List.mem_map, List.mem_range] at h
  obtain ⟨i, hi, rfl⟩ := h
  rfl

/-- `List.filter` is idempotent. -/
theorem filter_self_idem (p : α → Bool) (l : List α) :
    (l.filter p).filter p = l.filter p := by
  induction l with
  | nil => rfl
  | cons a l ih =>
    by_cases h : p a = true <;> simp [List.filter_cons, h, ih]

/-! ### Claims -/

/-- **C1.** For every row, the risk category is a deterministic, total
function of the accident rate per 1,000 vehicles: a rate strictly
greater than 5 yields `"High Risk"`, strictly greater than 2 and at most
5 yields `"Medium Risk"`, at most 2 yields `"Low Risk"`; in particular
rate 5 yields `"Medium Risk"` and rate 2 yields `"Low Risk"`. -/
theorem risk_category_total_bucketing (q : ℚ) :
    (5 < q → risk_category (some q) = "High Risk") ∧
    (2 < q → q ≤ 5 → risk_category (some q) = "Medium Risk") ∧
    (q ≤ 2 → risk_category (some q) = "Low Risk") ∧
    risk_category (some 5) = "Medium Risk" ∧
    risk_category (some 2) = "Low Risk" := by
  refine ⟨fun h => ?_, fun h1 h2 => ?_, fun h => ?_, ?_, ?_⟩
  · simp [risk_category, cellGT, h]
  · have h5 : ¬ (5 < q) := not_lt.mpr h2
    simp [risk_category, cellGT, h1, h5]
  · have h5 : ¬ (5 < q) := not_lt.mpr (h.trans (by norm_num))
    have h2' : ¬ (2 < q) := not_lt.mpr h
    simp [risk_category, cellGT, h5, h2']
  · norm_num [risk_category, cellGT]
  · norm_num [risk_category, cellGT]

/-- Witness for C1 at the concrete rates 7, 3 and 1. -/
theorem risk_category_total_bucketing_witness :
    risk_category (some 7) = "High Risk" ∧
    risk_category (some 3) = "Medium Risk" ∧
    risk_category (some 1) = "Low Risk" :=
  ⟨(risk_category_total_bucketing 7).1 (by norm_num),
   (risk_category_total_bucketing 3).2.1 (by norm_num) (by norm_num),
   (risk_category_total_bucketing 1).2.2.1 (by norm_num)⟩

/-- **C4.** Filter contract: a row is in the filtered table iff it is in
the input table and its year lies in the inclusive interval
`[y0, y1]`, its state is in the state set, and its risk category is in
the risk set — the conjunction of all three predicates. -/
theorem filter_mem_iff (rows : List FRow) (y0 y1 : ℤ)
    (ss rs : List String) (r : FRow) :
    r ∈ filterTable rows y0 y1 ss rs ↔
      r ∈ rows ∧ (y0 ≤ r.year ∧ r.year ≤ y1) ∧ r.state ∈ ss ∧
        r.risk ∈ rs := by
  simp [filterTable, List.mem_filter, between, and_assoc]

/-- **C8.** Filtering is idempotent: applying the filter with the same
year range, state set and risk set to its own output returns the
identical table. -/
theorem filter_idempotent (rows : List FRow) (y0 y1 : ℤ)
    (ss rs : List String) :
    filterTable (filterTable rows y0 y1 ss rs) y0 y1 ss rs =
      filterTable rows y0 y1 ss rs :=
  filter_self_idem _ rows

/-- **C10.** A row whose accident rate failed numeric coercion survives
cleaning (only `Year` is checked) with a missing rate; since a NaN rate
satisfies neither strict comparison, `risk_category` assigns it
`"Low Risk"`, and the row is selected by any filter whose risk set is
`["Low Risk"]` and whose year range and state set accept it. -/
theorem missing_rate_selectable_low_risk :
    risk_category none = "Low Risk" ∧
    ∀ (crows : List CleanRow) (r : FRow), r ∈ featureRows crows →
      r.rate = none →
      r.risk = "Low Risk" ∧
      ∀ (y0 y1 : ℤ) (ss : List String), y0 ≤ r.year → r.year ≤ y1 →
        r.state ∈ ss →
        r ∈ filterTable (featureRows crows) y0 y1 ss ["Low Risk"] := by
  refine ⟨rfl, fun crows r hmem hrate => ?_⟩
  have hrisk : r.risk = "Low Risk" := by
    rw [featureRows_risk_eq crows r hmem, hrate]
    rfl
  refine ⟨hrisk, fun y0 y1 ss h0 h1 hs => ?_⟩
  refine List.mem_filter.mpr ⟨hmem, ?_⟩
  simp [between, h0, h1, hs, hrisk]

/-- A cleaned row whose rate cell failed numeric coercion. -/
def demoMissingRate : CleanRow :=
  { state := "Delhi", year := 2019, vehicles := some 1000,
    accidents := some 50, rate := none, fatalities := some 5 }

/-- Witness for C10: a one-row table whose rate cell is missing ends up
Low Risk and passes the Low-Risk filter. -/
theorem missing_rate_selectable_low_risk_witness :
    featureRowAt [demoMissingRate] 0 ∈
      filterTable (featureRows [demoMissingRate]) 2011 2022 ["Delhi"]
        ["Low Risk"] :=
  ((missing_rate_selectable_low_risk.2 [demoMissingRate]
      (featureRowAt [demoMissingRate] 0)
      (by simp [featureRows, sortRows, sortBy, insertBy]) rfl).2 2011 2022 ["Delhi"]
      (by decide) (by decide) (by decide))

/-- **C7.** If the table is empty after cleaning, the run halts at the
fatal, user-visible `st.error`/`st.stop` of lines 63–65: the outcome is
`emptyDataError`, a constructor carrying no feature-engineered,
filtered, aggregated or rendered data. -/
theorem empty_clean_halts (t : RawTable) (y0 y1 : ℤ)
    (ss rs : List String) (h : (cleanTable t).rows = []) :
    runApp t y0 y1 ss rs = AppResult.emptyDataError := by
  simp [runApp, h]

/-- A raw table whose single row has an uncoercible year, so cleaning
drops everything. -/
def demoRawBadYear : RawTable :=
  { cols := ["State/UT", "Year", "Number of Registered Vehicles",
      "Number of Road Accidents", "Accident per 1,000 vehicles",
      "Fatality"]
    rows := [{ state := "Delhi", year := none, vehicles := some 1000,
               accidents := some 50, rate := some 3,
               fatalities := some 5 }] }

/-- Witness for C7: on a table whose rows all lose their year to
coercion, the run reports the fatal empty-data error. -/
theorem empty_clean_halts_witness :
    runApp demoRawBadYear 2011 2022 ["Delhi"] ["Low Risk"] =
      AppResult.emptyDataError :=
  empty_clean_halts demoRawBadYear 2011 2022 ["Delhi"] ["Low Risk"] rfl

/-- **C6.** An empty filter result is a detected, non-fatal outcome:
with a nonempty cleaned table, if the chosen filters select no row the
run stops at the `st.warning`/`st.stop` of lines 132–134 and yields
`noDataWarning`, a constructor carrying no aggregation or KPI values;
moreover a state set disjoint from the states present, or a year range
missing every row's year, does make the filtered table empty. -/
theorem empty_filter_short_circuits (t : RawTable) (y0 y1 : ℤ)
    (ss rs : List String) (hne : (cleanTable t).rows ≠ []) :
    (filterTable (featureRows (cleanTable t).rows) y0 y1 ss rs = [] →
      runApp t y0 y1 ss rs = AppResult.noDataWarning) ∧
    ((∀ r ∈ featureRows (cleanTable t).rows, r.state ∉ ss) →
      filterTable (featureRows (cleanTable t).rows) y0 y1 ss rs = []) ∧
    ((∀ r ∈ featureRows (cleanTable t).rows, r.year < y0 ∨ y1 < r.year) →
      filterTable (featureRows (cleanTable t).rows) y0 y1 ss rs = []) := by
  refine ⟨fun hemp => ?_, fun hdisj => ?_, fun hout => ?_⟩
  · have h1 : ((cleanTable t).rows).isEmpty = false := by
      simp [List.isEmpty_iff, hne]
    have h2 : (filterTable (featureRows (cleanTable t).rows) y0 y1 ss
        rs).isEmpty = true := by
      simp [List.isEmpty_iff, hemp]
    rw [runApp, h1, h2]
    rfl
  · refine List.filter_eq_nil_iff.mpr fun r hr => ?_
    simp [between, hdisj r hr]
  · refine List.filter_eq_nil_iff.mpr fun r hr => ?_
    rcases hout r hr with h | h <;> simp [between, not_le_of_lt h]

/-- A raw table with one fully numeric row (Delhi 2019). -/
def demoRawGood : RawTable :=
  { cols := ["State/UT", "Year", "Number of Registered Vehicles",
      "Number of Road Accidents", "Accident per 1,000 vehicles",
      "Fatality"]
    rows := [{ state := "Delhi", year := some 2019,
               vehicles := some 1000000, accidents := some 5000,
               rate := some 5, fatalities := some 500 }] }

/-- Witness for C6: a year range before any data year selects nothing
and the run ends in the non-fatal no-data warning. -/
theorem empty_filter_short_circuits_witness :
    runApp demoRawGood 1900 1901 ["Delhi"] ["Low Risk"] =
      AppResult.noDataWarning :=
  (empty_filter_short_circuits demoRawGood 1900 1901 ["Delhi"] ["Low Risk"]
    (by decide)).1 (by decide)

/-- A raw table whose single row has a numeric year but a fatality cell
that failed numeric coercion. -/
def demoRawMissingFat : RawTable :=
  { cols := ["State/UT", "Year", "Number of Registered Vehicles",
      "Number of Road Accidents", "Accident per 1,000 vehicles",
      "Fatality"]
    rows := [{ state := "Delhi", year := some 2019,
               vehicles := some 1000, accidents := some 50,
               rate := some 3, fatalities := none }] }

/-- **C3 counterexample.** Cleaning drops only on a missing `Year`
(line 57), so a row whose `Fatality` cell failed numeric coercion
survives cleaning with that field still missing — refuting "every row in
which any of the five required fields failed coercion has been
dropped". -/
theorem clean_keeps_missing_fatality :
    (cleanTable demoRawMissingFat).rows ≠ [] ∧
    ∃ r ∈ (cleanTable demoRawMissingFat).rows, r.fatalities = none := by
  decide

/-- **C3 (amended).** After cleaning, a row is in the cleaned table iff
it arises from an input row whose `Year` cell coerced to a number; rows
with an uncoercible `Year` are dropped, while rows whose other four
required fields failed coercion are retained with those cells
missing. -/
theorem cleaned_rows_iff (t : RawTable) (c : CleanRow) :
    c ∈ (cleanTable t).rows ↔
      ∃ r ∈ t.rows, r.year.isSome ∧ toCleanRow r = c := by
  simp [cleanTable, List.mem_filter, and_assoc]

/-- Forgetting the integer typing of a cleaned row's year, to compare a
cleaned row with the raw row it came from. -/
def reembed (c : CleanRow) : RawRow :=
  { state := c.state, year := some (c.year : ℚ), vehicles := c.vehicles,
    accidents := c.accidents, rate := c.rate, fatalities := c.fatalities }

/-- Truncation toward zero is the identity on integers. -/
theorem truncQ_intCast (z : ℤ) : truncQ (z : ℚ) = z := by
  unfold truncQ
  by_cases h : (0:ℚ) ≤ (z:ℚ)
  · rw [if_pos h, Int.floor_intCast]
  · rw [if_neg h, show -((z:ℚ)) = ((-z : ℤ) : ℚ) by push_cast; ring,
      Int.floor_intCast, neg_neg]

/-- Re-reading a cleaned row as a raw row recovers the input whenever
the year cell held an integer. -/
theorem reembed_toCleanRow (r : RawRow) (z : ℤ)
    (hz : r.year = some (z : ℚ)) : reembed (toCleanRow r) = r := by
  cases r
  simp only at hz
  subst hz
  simp only [toCleanRow, reembed, Option.getD_some, truncQ_intCast]

/-- **C9.** Cleaning a table that is already clean is a no-op: if the
column names carry no surrounding whitespace, one column is exactly
`"Year"`, every required cell of every row is numeric and every year is
integer-valued, then the cleaned table has the same columns and exactly
the input rows (each year cell re-read at its integer value). -/
theorem clean_noop_on_clean (t : RawTable)
    (hcols : ∀ c ∈ t.cols, stripName c = c)
    (hyear : "Year" ∈ t.cols)
    (hnum : ∀ r ∈ t.rows, r.year.isSome ∧ r.vehicles.isSome ∧
      r.accidents.isSome ∧ r.rate.isSome ∧ r.fatalities.isSome)
    (hint : ∀ r ∈ t.rows, ∃ z : ℤ, r.year = some (z : ℚ)) :
    (cleanTable t).cols = t.cols ∧
    (cleanTable t).rows.map reembed = t.rows := by
  have hstrip : stripCols t.cols = t.cols := by
    rw [stripCols, List.map_congr_left hcols]
    simp
  constructor
  · show ensureYearCol (stripCols t.cols) = t.cols
    rw [hstrip, ensureYearCol, if_pos hyear]
  · show ((t.rows.filter (fun r => r.year.isSome)).map toCleanRow).map
      reembed = t.rows
    have hkeep : t.rows.filter (fun r => r.year.isSome) = t.rows :=
      List.filter_eq_self.mpr fun r hr => by
        simpa using (hnum r hr).1
    have hid : ∀ r ∈ t.rows, (reembed ∘ toCleanRow) r = r := by
      intro r hr
      obtain ⟨z, hz⟩ := hint r hr
      simpa using reembed_toCleanRow r z hz
    rw [hkeep, List.map_map, List.map_congr_left hid]
    simp

/-- Witness for C9: a concrete clean one-row table is returned
unchanged. -/
theorem clean_noop_on_clean_witness :
    (cleanTable demoRawGood).cols = demoRawGood.cols ∧
    (cleanTable demoRawGood).rows.map reembed = demoRawGood.rows :=
  clean_noop_on_clean demoRawGood (by decide) (by decide) (by decide)
    (fun r hr => ⟨2019, by
      simp only [demoRawGood, List.mem_singleton] at hr
      subst hr
      norm_num⟩)

/-- Membership through `insertBy`. -/
theorem mem_insertBy (le : α → α → Bool) (a b : α) (l : List α) :
    b ∈ insertBy le a l ↔ b = a ∨ b ∈ l := by
  induction l with
  | nil => simp [insertBy]
  | cons c l ih =>
    by_cases h : le a c = true <;> simp [insertBy, h, ih]
    tauto

/-- `sortBy` permutes membership. -/
theorem mem_sortBy (le : α → α → Bool) (b : α) (l : List α) :
    b ∈ sortBy le l ↔ b ∈ l := by
  induction l with
  | nil => simp [sortBy]
  | cons a l ih => simp [sortBy, mem_insertBy, ih]

/-- `insertBy` preserves sortedness when `le` is total and
transitive. -/
theorem pairwise_insertBy (le : α → α → Bool)
    (htot : ∀ a b, le a b = true ∨ le b a = true)
    (htrans : ∀ a b c, le a b = true → le b c = true → le a c = true)
    (a : α) (l : List α)
    (h : List.Pairwise (fun x y => le x y = true) l) :
    List.Pairwise (fun x y => le x y = true) (insertBy le a l) := by
  induction l with
  | nil => simp [insertBy]
  | cons c l ih =>
    rcases List.pairwise_cons.mp h with ⟨hc, hl⟩
    by_cases hac : le a c = true
    · rw [insertBy, if_pos hac]
      refine List.pairwise_cons.mpr ⟨?_, h⟩
      intro b hb
      rcases List.mem_cons.mp hb with rfl | hb
      · exact hac
      · exact htrans a c b hac (hc b hb)
    · rw [insertBy, if_neg hac]
      have hca : le c a = true := (htot a c).resolve_left hac
      refine List.pairwise_cons.mpr ⟨?_, ih hl⟩
      intro b hb
      rcases (mem_insertBy le a b l).mp hb with rfl | hb
      · exact hca
      · exact hc b hb

/-- `sortBy` sorts, for a total transitive comparison. -/
theorem pairwise_sortBy (le : α → α → Bool)
    (htot : ∀ a b, le a b = true ∨ le b a = true)
    (htrans : ∀ a b c, le a b = true → le b c = true → le a c = true)
    (l : List α) :
    List.Pairwise (fun x y => le x y = true) (sortBy le l) := by
  induction l with
  | nil => exact List.Pairwise.nil
  | cons a l ih => exact pairwise_insertBy le htot htrans a _ ih

/-- A feature row of the tied-states example: state `"A"`, 10 road
accidents. -/
def demoTieA : FRow :=
  { state := "A", year := 2019, vehicles := some 100,
    accidents := some 10, rate := some 1, fatalities := some 1,
    fatPerAcc := some (1/10), accPerMillion := some 100000, yoy := none,
    risk := "Low Risk", covid := "Non-COVID" }

/-- The same row for state `"B"`, also 10 road accidents. -/
def demoTieB : FRow :=
  { demoTieA with state := "B" }

/-- **C5 counterexample.** With two states tied on summed road
accidents and `"B"` encountered first in the filtered rows, the ranking
lists `"A"` first, not the first-encountered state: `groupby`
(sort=True) orders the group keys alphabetically, discarding the
first-encountered order, and the tie-preserving descending sort keeps
that alphabetical order among equal sums. -/
theorem state_acc_tie_not_first_encountered :
    state_acc [demoTieB, demoTieA] = [("A", 10), ("B", 10)] ∧
    state_acc [demoTieB, demoTieA] ≠ [("B", 10), ("A", 10)] := by
  constructor <;>
    simp [state_acc, sortValuesDesc, groupStateSums, sortBy, insertBy,
      cellSum, strLeB, strLtB, demoTieA, demoTieB]

/-- **C5 (amended).** `state_acc` groups the filtered rows by state with
summed road accidents, returns at most 10 rows sorted by the summed
accidents in descending order, and each returned pair is one of the
`(state, sum)` groups; tie order is not the first-encountered order of
the filtered rows (see the counterexample) but the ascending state
order that `groupby` imposes on its keys. -/
theorem state_acc_bounded_sorted (rows : List FRow) :
    (state_acc rows).length ≤ 10 ∧
    List.Pairwise (fun a b => b.2 ≤ a.2) (state_acc rows) ∧
    ∀ p ∈ state_acc rows, p ∈ groupStateSums rows := by
  refine ⟨List.length_take_le 10 _, ?_, ?_⟩
  · have hs := pairwise_sortBy (fun a b : String × ℚ => decide (a.2 ≤ b.2))
      (fun a b => by
        rcases le_total a.2 b.2 with h | h
        · exact Or.inl (decide_eq_true h)
        · exact Or.inr (decide_eq_true h))
      (fun a b c hab hbc =>
        decide_eq_true (le_trans (of_decide_eq_true hab)
          (of_decide_eq_true hbc)))
      (groupStateSums rows).reverse
    have hrev : List.Pairwise (fun a b : String × ℚ => b.2 ≤ a.2)
        (sortValuesDesc (groupStateSums rows)) := by
      rw [sortValuesDesc, List.pairwise_reverse]
      exact hs.imp fun h => of_decide_eq_true h
    exact hrev.sublist (List.take_sublist 10 _)
  · intro p hp
    have h1 : p ∈ sortValuesDesc (groupStateSums rows) :=
      List.take_subset 10 _ hp
    rw [sortValuesDesc, List.mem_reverse] at h1
    exact List.mem_reverse.mp ((mem_sortBy _ p _).mp h1)

/-- Witness for C5's amended theorem: in the tied example, the ranked
pair `("A", 10)` is indeed one of the grouped sums. -/
theorem state_acc_bounded_sorted_witness :
    ("A", (10:ℚ)) ∈ groupStateSums [demoTieB, demoTieA] :=
  (state_acc_bounded_sorted [demoTieB, demoTieA]).2.2 ("A", 10)
    (by simp [state_acc, sortValuesDesc, groupStateSums, sortBy, insertBy,
      cellSum, strLeB, strLtB, demoTieA, demoTieB])

/-- Sortedness by `(state, year)` ascending: the table shape produced
by line 76's `sort_values(["State/UT", "Year"])`, a precondition of the
YoY computation. -/
def SortedByStateYear (rows : List CleanRow) : Prop :=
  List.Pairwise (fun a b => a.state < b.state ∨
    (a.state = b.state ∧ a.year ≤ b.year)) rows

/-- **C2.** On a table sorted by `(state, year)` ascending, the
`YoY Accident Change (%)` value is undefined (NaN) at each state's
first row; and at any row preceded by some row of the same state, the
immediately preceding row has that same state (sortedness groups states
contiguously) and the value equals
`(cur_accidents - prev_accidents) / prev_accidents * 100` computed
against that immediately preceding row. -/
theorem yoy_pct_change_spec (rows : List CleanRow)
    (hs : SortedByStateYear rows) (i : ℕ) (hi : i < rows.length) :
    ((∀ j, j < i →
        (rows.getD j default).state ≠ (rows.getD i default).state) →
      yoyAt rows i = none) ∧
    (∀ j, j < i →
      (rows.getD j default).state = (rows.getD i default).state →
      (rows.getD (i - 1) default).state = (rows.getD i default).state ∧
      ∀ p c : ℚ, (rows.getD (i - 1) default).accidents = some p →
        (rows.getD i default).accidents = some c → p ≠ 0 →
        yoyAt rows i = some ((c - p) / p * 100)) := by
  constructor
  · intro hfar
    have hnil : (rows.take i).filter
        (fun r => r.state == (rows.getD i default).state) = [] := by
      refine List.filter_eq_nil_iff.mpr fun r hr => ?_
      obtain ⟨k, hk, hrk⟩ := List.mem_iff_getElem.mp hr
      have hki : k < i := by
        have hlen := hk
        simp only [List.length_take] at hlen
        omega
      have hkl : k < rows.length := lt_of_lt_of_le hki (le_of_lt hi)
      have hr' : r = rows.getD k default := by
        rw [List.getD_eq_getElem rows default hkl, ← hrk,
          List.getElem_take rows]
      rw [hr']
      simpa using hfar k hki
    simp only [yoyAt, prevSameState, hnil, List.getLast?_nil]
  · intro j hj hstate
    have h1i : 1 ≤ i := by omega
    have him : i - 1 < rows.length := by omega
    have hjl : j < rows.length := by omega
    have hpair := List.pairwise_iff_getElem.mp hs
    have hgd : rows.getD (i - 1) default = rows[i - 1] :=
      List.getD_eq_getElem rows default him
    have hgdi : rows.getD i default = rows[i] :=
      List.getD_eq_getElem rows default hi
    have hgdj : rows.getD j default = rows[j] :=
      List.getD_eq_getElem rows default hjl
    have hstate' : (rows[j]).state = (rows[i]).state := by
      rw [← hgdj, ← hgdi]; exact hstate
    have hadj' : (rows[i - 1]).state = (rows[i]).state := by
      rcases Nat.lt_or_ge j (i - 1) with hlt | hge
      · have R1 := hpair j (i - 1) hjl him hlt
        have R2 := hpair (i - 1) i him hi (by omega)
        rcases R2 with h2 | ⟨h2, _⟩
        · exfalso
          rcases R1 with h1 | ⟨h1, _⟩
          · have hcontra := lt_trans h1 h2
            rw [← hstate'] at hcontra
            exact lt_irrefl _ hcontra
          · rw [← h1, ← hstate'] at h2
            exact lt_irrefl _ h2
        · exact h2
      · have hje : j = i - 1 := by omega
        subst hje
        exact hstate'
    have hadj : (rows.getD (i - 1) default).state =
        (rows.getD i default).state := by
      rw [hgd, hgdi]; exact hadj'
    refine ⟨hadj, ?_⟩
    intro p c hp hc hpne
    have hbeq : ((rows[i - 1]).state ==
        (rows.getD i default).state) = true := by
      rw [hgdi]
      exact beq_iff_eq.mpr hadj'
    have hprev : prevSameState rows i = some (rows[i - 1]) := by
      rw [prevSameState]
      have htake : rows.take i = rows.take (i - 1) ++ [rows[i - 1]] := by
        have h := List.take_concat_get' rows (i - 1) him
        have hsucc : i - 1 + 1 = i := by omega
        rw [hsucc] at h
        exact h.symm
      rw [htake, List.filter_append]
      have hone : List.filter
          (fun r => r.state == (rows.getD i default).state)
          [rows[i - 1]] = [rows[i - 1]] := by
        rw [List.filter_cons, if_pos hbeq, List.filter_nil]
      rw [hone, List.getLast?_concat]
    rw [hgd] at hp
    simp only [yoyAt, hprev, hp, hc, pctChange, if_neg hpne]

/-- The two Delhi rows of the specification's worked example, sorted by
`(state, year)`. -/
def demoDelhi : List CleanRow :=
  [{ state := "Delhi", year := 2019, vehicles := some 1000000,
     accidents := some 5000, rate := some 5, fatalities := some 500 },
   { state := "Delhi", year := 2020, vehicles := some 1010000,
     accidents := some 3000, rate := some (297/100),
     fatalities := some 250 }]

/-- Witness for C2: on the Delhi example the 2020 row's YoY value is
`(3000 - 5000) / 5000 * 100`. -/
theorem yoy_pct_change_spec_witness :
    yoyAt demoDelhi 1 = some ((3000 - 5000) / 5000 * 100) :=
  (((yoy_pct_change_spec demoDelhi
      (by
        refine List.pairwise_cons.mpr ⟨?_, List.pairwise_singleton _ _⟩
        intro b hb
        simp only [demoDelhi, List.mem_singleton] at hb
        subst hb
        exact Or.inr ⟨rfl, by decide⟩)
      1 (by decide)).2 0 (by decide) (by decide)).2 5000 3000
    (by decide) (by decide) (by norm_num))

end RoadDashboard
